import Mathlib

/-!
Verification development for the MolDGui worker/process supervision core
and its file/stream helpers.

The definitions below are a shallow embedding of the Python sources:

* `src/itaxotools/mold/gui/io.py` — `StreamMultiplexer`
* `src/itaxotools/mold/gui/files.py` — `check_sequence_file`,
  `parse_configuration_file`
* `src/itaxotools/mold/gui/threading.py` — `Worker.run`, `Worker.loop`,
  `Worker.handle_exit`, `Worker.handle_connections`,
  `Worker.consume_connections`, `Worker.handle_report`, `Worker.reset`
* `src/itaxotools/mold/gui/model/common.py` — `Task.stop`

Python values relevant to the supervision core (task identifiers that may
be ints or strings) are modelled by `PyValue`; Python exceptions raised by
the embedded functions are modelled by the `Except PyError` monad.
-/

set_option autoImplicit false

namespace MolD

/-- A Python value used as an opaque task identifier: the application passes
either an int or a string (a timestamp such as `"20220101T120000"`). -/
inductive PyValue where
  | int (n : Int)
  | str (s : String)
  deriving DecidableEq, Repr

/-- Python's `x != 0` on a `PyValue`: an int compares by value, while a
string is never equal to the int `0`. -/
def PyValue.neZero : PyValue → Bool
  | .int n => n != 0
  | .str _ => true

/-- Python exceptions raised by the embedded functions: `ValueError` from
`list.remove` / `int()` / enum lookups, and generic `Exception(msg)`. -/
inductive PyError where
  | valueError
  | exception (msg : String)
  deriving DecidableEq, Repr

/-! ### Stream multiplexer (`io.py`) -/

/-- Embedding of `StreamMultiplexer` from `io.py`: holds the ordered list of registered
sinks. A sink is an `Option σ`, where `none` models Python `None` (stdio
streams might be `None` if compiled) and `some x` models a (truthy) stream
object. -/
structure StreamMultiplexer (σ : Type) where
  streams : List (Option σ)
  deriving DecidableEq, Repr

namespace StreamMultiplexer

/-- Embedding of `StreamMultiplexer.add`: `if stream: self.streams.append(stream)` —
a falsy (`None`) sink is silently ignored. -/
def add {σ : Type} (m : StreamMultiplexer σ) (s : Option σ) : StreamMultiplexer σ :=
  match s with
  | none => m
  | some x => { m with streams := m.streams ++ [some x] }

/-- Embedding of `StreamMultiplexer.__init__(*streams)`: registers each argument via `add`. -/
def init {σ : Type} (ss : List (Option σ)) : StreamMultiplexer σ :=
  ss.foldl add ⟨[]⟩

/-- Python `list.remove(a)`: removes the first element equal to `a`, or
raises `ValueError` when no element is equal to `a`. -/
def removeFirst {α : Type} [DecidableEq α] : List α → α → Except PyError (List α)
  | [], _ => .error .valueError
  | x :: xs, a => if x = a then .ok xs else (removeFirst xs a).map (x :: ·)

/-- Embedding of `StreamMultiplexer.remove`: `self.streams.remove(stream)` — no guard, so
`ValueError` propagates when the sink is not registered. -/
def remove {σ : Type} [DecidableEq σ] (m : StreamMultiplexer σ) (s : Option σ) :
    Except PyError (StreamMultiplexer σ) :=
  (removeFirst m.streams s).map (fun l => { m with streams := l })

/-- Embedding of `StreamMultiplexer.write`: forwards the text to every registered sink in
list order; the result is the sequence of deliveries performed. -/
def write {σ : Type} (m : StreamMultiplexer σ) (text : String) : List (Option σ × String) :=
  m.streams.map (fun s => (s, text))

end StreamMultiplexer

/-! ### Python string primitives

`files.py` manipulates Python strings with `str.strip`, `str.split`,
`str.replace`, `str.upper`, `str.lower` and `str.startswith`; these are
embedded here over `List Char` so that every definition reduces in the
kernel. -/

/-- Python `str.split(sep)` for a one-character separator: splits at every
occurrence, keeping empty fields, so `""` yields `[""]` and `"a=b"` yields
`["a", "b"]`. -/
def splitChars (c : Char) : List Char → List (List Char)
  | [] => [[]]
  | x :: xs =>
    if x = c then [] :: splitChars c xs
    else
      match splitChars c xs with
      | [] => [[x]]
      | g :: gs => (x :: g) :: gs

/-- Python `str.strip()`: drops leading and trailing whitespace. -/
def stripChars (l : List Char) : List Char :=
  ((l.dropWhile Char.isWhitespace).reverse.dropWhile Char.isWhitespace).reverse

/-- Embedding of `str.strip()` lifted to `String`. -/
def stripStr (s : String) : String :=
  ⟨stripChars s.data⟩

/-- Embedding of `str.split(sep)` lifted to `String`. -/
def splitStr (c : Char) (s : String) : List String :=
  (splitChars c s.data).map (⟨·⟩)

/-- Python `str.replace(' ', '')`: removes every space character. -/
def removeSpaces (s : String) : String :=
  ⟨s.data.filter (· ≠ ' ')⟩

/-- Python `str.upper()` on the ASCII parameter names used here. -/
def toUpperStr (s : String) : String :=
  ⟨s.data.map Char.toUpper⟩

/-- Python `str.lower()` on the ASCII parameter values used here. -/
def toLowerStr (s : String) : String :=
  ⟨s.data.map Char.toLower⟩

/-- Python `str.startswith('#')`: true when the first character is `#`. -/
def startsWithHash (s : String) : Bool :=
  match s.data with
  | c :: _ => c = '#'
  | [] => false

/-- Python `int(s)` on the decimal literals appearing in configuration
files: optional surrounding whitespace, an optional sign, then digits;
anything else raises `ValueError`. -/
def pyInt (s : String) : Except PyError Int :=
  let core : List Char → Except PyError Int := fun ds =>
    if ds.isEmpty ∨ ¬ ds.all Char.isDigit then .error .valueError
    else .ok (Int.ofNat (ds.foldl (fun n d => n * 10 + d.toNat - '0'.toNat) 0))
  match stripChars s.data with
  | '-' :: ds => (core ds).map (fun n => -n)
  | '+' :: ds => core ds
  | ds => core ds

/-! ### Domain enumerations (`types/mold.py`)

Only the value-lookup behaviour of the `str`-based enums matters to the
configuration parser: constructing an enum from an unknown code raises
`ValueError`. -/

/-- Embedding of `TaxonRank`: codes `'1'` (Species) and `'2'` (Supraspecific). -/
inductive TaxonRank where
  | species
  | supraspecific
  deriving DecidableEq, Repr

/-- Enum value lookup `TaxonRank(x)`. -/
def TaxonRank.fromCode (s : String) : Except PyError TaxonRank :=
  if s = "1" then .ok .species
  else if s = "2" then .ok .supraspecific
  else .error .valueError

/-- Embedding of `GapsAsCharacters`: codes `'yes'` and `'no'`. -/
inductive GapsAsCharacters where
  | yes
  | no
  deriving DecidableEq, Repr

/-- Enum value lookup `GapsAsCharacters(x)`. -/
def GapsAsCharacters.fromCode (s : String) : Except PyError GapsAsCharacters :=
  if s = "yes" then .ok .yes
  else if s = "no" then .ok .no
  else .error .valueError

/-- Embedding of `ScoringThreshold`: codes `'lousy'`, `'moderate'`, `'stringent'`,
`'very_stringent'`. -/
inductive ScoringThreshold where
  | lousy
  | moderate
  | stringent
  | veryStringent
  deriving DecidableEq, Repr

/-- Enum value lookup `ScoringThreshold(x)`. -/
def ScoringThreshold.fromCode (s : String) : Except PyError ScoringThreshold :=
  if s = "lousy" then .ok .lousy
  else if s = "moderate" then .ok .moderate
  else if s = "stringent" then .ok .stringent
  else if s = "very_stringent" then .ok .veryStringent
  else .error .valueError

/-! ### File checking and parsing (`files.py`) -/

/-- Python `file.readline()` after the first character was consumed: the
characters up to and including the first newline. -/
def takeLine : List Char → List Char
  | [] => []
  | c :: cs => if c = '\n' then [c] else c :: takeLine cs

/-- The error raised by `check_sequence_file` when the file does not start
with the FASTA marker. -/
def fastaErrorMsg : String :=
  "Error opening sequence file: \n" ++
    "Sequences must be provided in the Fasta format, and the file must begin with the \">\" symbol."

/-- The error raised by `check_sequence_file` when the first header line
has no pipe symbol. -/
def pipeMissingErrorMsg : String :=
  "Error opening sequence file: \n" ++
    "Taxon identifiers must be provided after each sequence identifier, separated by a single pipe symbol: \"|\""

/-- The error raised by `check_sequence_file` when the first header line
has more than one pipe symbol. -/
def pipeExtraErrorMsg : String :=
  "Error opening sequence file: \n" ++
    "Each identifier line must only contain a single pipe symbol: \"|\""

/-- Embedding of `check_sequence_file`, over the file's text content: reads one
character, requires it to be `'>'`, then reads the rest of the first line
and requires its split on `'|'` to have exactly two fields. -/
def check_sequence_file (content : String) : Except PyError Unit :=
  match content.data with
  | [] => .error (.exception fastaErrorMsg)
  | c :: rest =>
    if c ≠ '>' then .error (.exception fastaErrorMsg)
    else if (splitChars '|' (takeLine rest)).length < 2 then
      .error (.exception pipeMissingErrorMsg)
    else if (splitChars '|' (takeLine rest)).length > 2 then
      .error (.exception pipeExtraErrorMsg)
    else .ok ()

/-- The values produced by the converters of `parse_configuration_file`'s
`reference` table. `pyNone` models a converter returning Python `None`. -/
inductive ConfigValue where
  | str (s : String)
  | path (p : String)
  | rank (r : TaxonRank)
  | gaps (g : GapsAsCharacters)
  | intVal (n : Int)
  | scoring (s : ScoringThreshold)
  | pyNone
  deriving DecidableEq, Repr

/-- An entry of the `reference` dict: either a converter function, or the
literal `None` stored for `OUTPUT_FILE` and `ORIG_FNAME`. -/
inductive RefEntry where
  | conv (f : String → Except PyError ConfigValue)
  | nullEntry

/-- Converter `lambda x: int(x) if x != '' else None`. -/
def intOrNone (x : String) : Except PyError ConfigValue :=
  if x = "" then .ok .pyNone else (pyInt x).map .intVal

/-- The `reference` dict of `parse_configuration_file`: the fixed closed set
of known parameter names, each with its converter. -/
def reference : String → Option RefEntry
  | "QTAXA" => some (.conv fun x => .ok (.str x))
  | "INPUT_FILE" => some (.conv fun x => .ok (.path x))
  | "TAXON_RANK" => some (.conv fun x => (TaxonRank.fromCode x).map .rank)
  | "GAPS_AS_CHARS" => some (.conv fun x => (GapsAsCharacters.fromCode (toLowerStr x)).map .gaps)
  | "CUTOFF" => some (.conv fun x => .ok (if x = "" then .pyNone else .str x))
  | "NUMBERN" => some (.conv intOrNone)
  | "NUMBER_OF_ITERATIONS" => some (.conv intOrNone)
  | "MAXLEN1" => some (.conv intOrNone)
  | "MAXLEN2" => some (.conv intOrNone)
  | "IREF" => some (.conv fun x => .ok (if x = "" then .pyNone else .str x))
  | "PDIFF" => some (.conv intOrNone)
  | "NMAXSEQ" => some (.conv intOrNone)
  | "SCORING" => some (.conv fun x => if x = "" then .ok .pyNone else (ScoringThreshold.fromCode x).map .scoring)
  | "OUTPUT_FILE" => some .nullEntry
  | "ORIG_FNAME" => some .nullEntry
  | _ => none

/-- Python dict insertion `d[k] = v` on an insertion-ordered association
list: an existing key keeps its position and gets the new value; a new key
is appended. -/
def upsert {β : Type} : List (String × β) → String → β → List (String × β)
  | [], k, v => [(k, v)]
  | p :: rest, k, v => if p.1 = k then (k, v) :: rest else p :: upsert rest k v

/-- Lookup in an insertion-ordered association list. -/
def lookupParam {β : Type} (params : List (String × β)) (k : String) : Option β :=
  (params.find? (fun p => p.1 == k)).map (·.2)

/-- One iteration of the line loop of `parse_configuration_file`: strip the
line, skip comments, split on `'='`; store the space-stripped value under
the key only when the split has exactly two fields and the value part is
nonempty. -/
def collectStep (params : List (String × String)) (line : String) : List (String × String) :=
  if startsWithHash (stripStr line) then params
  else
    match splitStr '=' (stripStr line) with
    | [k, v] => if v.length ≠ 0 then upsert params k (removeSpaces v) else params
    | _ => params

/-- The full line loop of `parse_configuration_file`: fold `collectStep`
over the file's lines, building the `params` dict. -/
def collectParams (lines : List String) : List (String × String) :=
  lines.foldl collectStep []

/-- The result-building dict comprehension of `parse_configuration_file`:
`{k.upper(): reference[k.upper()](v) for k, v in params.items() if
reference[k.upper()] is not None}`; converter exceptions propagate. -/
def buildResult (params : List (String × String)) : Except PyError (List (String × ConfigValue)) :=
  params.foldlM
    (fun acc p =>
      match reference (toUpperStr p.1) with
      | some (.conv f) => (f p.2).map (fun v => upsert acc (toUpperStr p.1) v)
      | some .nullEntry => .ok acc
      | none => .ok acc)
    []

/-- Embedding of `parse_configuration_file`, over the file's lines: collect the raw
parameters, reject an empty result, reject the whole file at the first
unknown parameter name, then convert. -/
def parse_configuration_file (lines : List String) : Except PyError (List (String × ConfigValue)) :=
  if (collectParams lines).isEmpty then
    .error (.exception ("Error opening configuration file: \n" ++ "No parameters found in file"))
  else
    match (collectParams lines).find? (fun p => (reference (toUpperStr p.1)).isNone) with
    | some p =>
      .error (.exception ("Error opening configuration file: \n" ++ "Invalid parameter name: " ++ p.1))
    | none => buildResult (collectParams lines)

/-! ### Reports (`threading_loop.py`)

Modelled from the spec: the report record types are declared in
`threading_loop.py`, which `threading.py` imports but which is not among
the sources; the fields follow §3 of the spec ('ReportDone {id, result}',
'ReportFail {id, exception, traceback}', 'ReportExit {id, exit_code}',
'ReportReset {id}') and the construction sites in `threading.py`
(`ReportExit(task.id, exitcode)`, `ReportReset(task.id)`, `ReportQuit()`). -/

/-- A terminal report for a task, as sent to `Worker.handle_report`. -/
inductive Report where
  | done (id : PyValue) (result : PyValue)
  | fail (id : PyValue) (exception : String) (traceback : String)
  | exit (id : PyValue) (exit_code : Int)
  | reset (id : PyValue)
  | quit
  deriving DecidableEq, Repr

/-- A Qt signal emission performed by `Worker.handle_report`: the `done`,
`fail` and `error` signals of the `Worker` thread. -/
inductive Signal where
  | doneSig (r : Report)
  | failSig (r : Report)
  | errorSig (r : Report)
  deriving DecidableEq, Repr

/-- Embedding of `Worker.handle_report`: flushes both stream multiplexers, then emits
the signal matching the report type; for a `ReportExit` the `error`
emission is guarded by `report.id != 0` (sic — the guard reads the `id`
field, not the exit code). -/
def handle_report : Report → List Signal
  | .done i r => [.doneSig (.done i r)]
  | .fail i e tb => [.failSig (.fail i e tb)]
  | .exit i c => if PyValue.neZero i then [.errorSig (.exit i c)] else []
  | .reset _ => []
  | .quit => []

/-! ### Supervisor loop state (`threading.py`) -/

/-- The connections multiplexed by `Worker.loop`'s `waitList`: the process
sentinel, the result channel, the progress-report channel and the two
stdout/stderr pipes. -/
inductive Conn where
  | sentinel
  | results
  | reports
  | pipeOut
  | pipeErr
  deriving DecidableEq, Repr

/-- The observable state of the supervisor thread while `Worker.loop` runs:
the remaining `waitList`, the buffered data of each inbound channel, the
`resetting`/`quitting`/`eager` flags, the child process's exit code, and
event counters/logs for the side effects (spawned processes, closed channel
sets, emitted progress, forwarded stdout/stderr). -/
structure WorkerState where
  waitList : List Conn
  resultsData : List Report
  reportsData : List String
  outData : List String
  errData : List String
  resetting : Bool
  quitting : Bool
  eager : Bool
  exitcode : Int
  procAlive : Bool
  spawns : Nat
  closes : Nat
  emittedProgress : List String
  writtenOut : List String
  writtenErr : List String
  deriving DecidableEq, Repr

/-- Embedding of `Worker.process_start`: clears the resetting flag and spawns a fresh
child process with a fresh channel set. -/
def process_start (st : WorkerState) : WorkerState :=
  { st with resetting := false, procAlive := true, spawns := st.spawns + 1 }

/-- One `recv` performed by `Worker.handle_connections` on a ready
connection: deliver the next buffered item to the connection's handler
(`progress.emit`, `streamOut.write`, `streamErr.write`); an empty buffer
models `EOFError`, which pops the connection from the `waitList`. The
sentinel and result connections are never handled here — on every call
path they were popped before. -/
def recvOne (st : WorkerState) (c : Conn) : WorkerState :=
  match c with
  | .reports =>
    match st.reportsData with
    | [] => { st with waitList := st.waitList.filter (· != Conn.reports) }
    | d :: ds => { st with reportsData := ds, emittedProgress := st.emittedProgress ++ [d] }
  | .pipeOut =>
    match st.outData with
    | [] => { st with waitList := st.waitList.filter (· != Conn.pipeOut) }
    | d :: ds => { st with outData := ds, writtenOut := st.writtenOut ++ [d] }
  | .pipeErr =>
    match st.errData with
    | [] => { st with waitList := st.waitList.filter (· != Conn.pipeErr) }
    | d :: ds => { st with errData := ds, writtenErr := st.writtenErr ++ [d] }
  | _ => st

/-- Embedding of `Worker.handle_connections`: one `recv` per ready connection. -/
def handle_connections (st : WorkerState) (ready : List Conn) : WorkerState :=
  ready.foldl recvOne st

/-- Full drain of one data connection, provided it is still in the
`waitList`. -/
def consumeConn (st : WorkerState) (c : Conn) : WorkerState :=
  if c ∈ st.waitList then
    match c with
    | .reports => { st with reportsData := [], emittedProgress := st.emittedProgress ++ st.reportsData }
    | .pipeOut => { st with outData := [], writtenOut := st.writtenOut ++ st.outData }
    | .pipeErr => { st with errData := [], writtenErr := st.writtenErr ++ st.errData }
    | _ => st
  else st

/-- Embedding of `Worker.consume_connections`: repeated zero-timeout waits until no
connection in the `waitList` has pending data — i.e. a non-blocking full
drain of the data connections still in the `waitList` (on both call sites
the `waitList` holds at most the progress/stdout/stderr connections). -/
def consume_connections (st : WorkerState) : WorkerState :=
  consumeConn (consumeConn (consumeConn st .reports) .pipeOut) .pipeErr

/-- Embedding of `Worker.handle_exit`: drain the remaining data connections, read the
exit code and the `resetting` flag, close the whole channel set and drop
the process handle; then report `ReportQuit` when quitting, else (after an
eager respawn) `ReportReset` when the saved `resetting` flag was set, else
`ReportExit` with the saved exit code. -/
def handle_exit (task : PyValue) (st : WorkerState) : WorkerState × Report :=
  let st1 := consume_connections st
  let exitcode := st1.exitcode
  let resetting := st1.resetting
  let st2 := { st1 with closes := st1.closes + 1, procAlive := false }
  if st2.quitting then (st2, .quit)
  else
    let st3 := if st2.eager then process_start st2 else st2
    if resetting then (st3, .reset task)
    else (st3, .exit task exitcode)

/-- Pop the sentinel and result connections from the `waitList`, as done by
`waitList.pop(sentinel, None); waitList.pop(self.results, None)`. -/
def popSentinelResults (st : WorkerState) : WorkerState :=
  { st with waitList := st.waitList.filter (fun c => c != Conn.sentinel && c != Conn.results) }

/-- One iteration of `Worker.loop`'s event loop, given the list of ready
connections returned by `mp.connection.wait`: the sentinel branch is tested
first, then the result channel, then data forwarding; returns the new state
and the report that ends the loop, if any. -/
def loop_step (task : PyValue) (st : WorkerState) (ready : List Conn) :
    WorkerState × Option Report :=
  if Conn.sentinel ∈ ready then
    let p := handle_exit task (popSentinelResults st)
    (p.1, some p.2)
  else if Conn.results ∈ ready then
    match st.resultsData with
    | [] => ({ st with waitList := st.waitList.filter (· != Conn.results) }, none)
    | r :: rest =>
      let st1 := popSentinelResults { st with resultsData := rest }
      (consume_connections st1, some r)
  else
    (handle_connections st ready, none)

/-! ### Supervisor thread main loop (`Worker.run`) -/

/-- A command dequeued by `Worker.run`; the queue may also carry the `None`
shutdown sentinel, modelled by `Option Cmd`. -/
structure Cmd where
  id : PyValue
  deriving DecidableEq, Repr

/-- An observable event of the supervisor thread's main loop: a command is
sent over the command channel, or its terminal report is handled. -/
inductive Event where
  | dispatched (c : Cmd)
  | reported (c : Cmd) (r : Report)
  deriving DecidableEq, Repr

/-- The event trace of `Worker.run` over the queue's contents: each
dequeued task is sent to the worker, then `Worker.loop` blocks until it
returns that task's terminal report (abstracted by `outcome`), which is
handled before the next task is dequeued; the `None` sentinel stops the
loop. -/
def run_events (outcome : Cmd → Report) : List (Option Cmd) → List Event
  | [] => []
  | none :: _ => []
  | some t :: rest => .dispatched t :: .reported t (outcome t) :: run_events outcome rest

/-- Number of dispatch events in a trace. -/
def countDispatched (es : List Event) : Nat :=
  (es.filter fun e => match e with | .dispatched _ => true | _ => false).length

/-- Number of report events in a trace. -/
def countReported (es : List Event) : Nat :=
  (es.filter fun e => match e with | .reported _ _ => true | _ => false).length

/-! ### Task facade (`model/common.py`) and `Worker.reset` -/

/-- A user-facing notification emitted by the task facade. -/
inductive Notif where
  | info (text : String)
  | warn (text : String)
  | failure (text : String)
  deriving DecidableEq, Repr

/-- The observable state shared by a `Task` facade and its `Worker`:
the facade's property flags, whether `self.worker` / `self.process` exist,
the worker's `resetting` flag, and logs of the side effects (stream
flushes, process terminations, emitted notifications). -/
structure TaskState where
  busy : Bool
  done : Bool
  ready : Bool
  hasWorker : Bool
  procAlive : Bool
  resetting : Bool
  terminated : Bool
  flushes : Nat
  notifications : List Notif
  deriving DecidableEq, Repr

/-- Embedding of `Worker.reset` (`threading.py`): when the child process exists and is
alive, set the `resetting` flag, flush both stream multiplexers and
terminate the process; otherwise do nothing. -/
def Worker.reset (st : TaskState) : TaskState :=
  if st.procAlive then
    { st with resetting := true, flushes := st.flushes + 1, terminated := true }
  else st

/-- Embedding of `Task.stop` (`model/common.py`): return immediately when
`self.worker is None`; otherwise call `worker.reset()`, emit the
`'Cancelled by user.'` warning notification and assign `busy = False`. -/
def Task.stop (st : TaskState) : TaskState :=
  if st.hasWorker = false then st
  else
    let st1 := Worker.reset st
    { st1 with
      notifications := st1.notifications ++ [Notif.warn "Cancelled by user."],
      busy := false }

/-! ### Concrete scenario states -/

/-- A supervisor state mid-task: the worker has sent its `ReportDone` on
the result channel and then exited with code 0, so both the sentinel
and the result channel are ready in the next wait round. -/
def tieState : WorkerState where
  waitList := [Conn.sentinel, Conn.results, Conn.reports, Conn.pipeOut, Conn.pipeErr]
  resultsData := [Report.done (PyValue.str "t1") (PyValue.int 42)]
  reportsData := []
  outData := []
  errData := []
  resetting := false
  quitting := false
  eager := true
  exitcode := 0
  procAlive := true
  spawns := 1
  closes := 0
  emittedProgress := []
  writtenOut := []
  writtenErr := []

/-- A supervisor state mid-task with an `eager` worker: the worker has sent
its `ReportDone` before exiting, and some progress and stream data is still
buffered; only the result channel is ready. -/
def resultState : WorkerState where
  waitList := [Conn.sentinel, Conn.results, Conn.reports, Conn.pipeOut, Conn.pipeErr]
  resultsData := [Report.done (PyValue.str "t1") (PyValue.int 42)]
  reportsData := ["50 percent"]
  outData := ["out line"]
  errData := ["err line"]
  resetting := false
  quitting := false
  eager := true
  exitcode := 0
  procAlive := true
  spawns := 1
  closes := 0
  emittedProgress := []
  writtenOut := []
  writtenErr := []

/-- A supervisor state right after `stop()`: the `resetting` flag is set
and the terminated worker produced a nonzero exit code. -/
def resetWorkerState : WorkerState where
  waitList := [Conn.reports, Conn.pipeOut, Conn.pipeErr]
  resultsData := []
  reportsData := []
  outData := []
  errData := []
  resetting := true
  quitting := false
  eager := true
  exitcode := -15
  procAlive := false
  spawns := 1
  closes := 0
  emittedProgress := []
  writtenOut := []
  writtenErr := []

/-- An idle task facade: no task is running (`busy = false`), the worker
thread exists and its eager child process is alive. -/
def idleTaskState : TaskState where
  busy := false
  done := false
  ready := true
  hasWorker := true
  procAlive := true
  resetting := false
  terminated := false
  flushes := 0
  notifications := []

end MolD

/-! ## Theorems -/

namespace MolD

namespace StreamMultiplexer

theorem removeFirst_error_iff {α : Type} [DecidableEq α] (l : List α) (a : α) :
    (∃ e, removeFirst l a = .error e) ↔ a ∉ l := by
  induction l with
  | nil =>
    simp [removeFirst]
  | cons x xs ih =>
    by_cases hx : x = a
    · subst hx
      simp [removeFirst]
    · rw [List.mem_cons, not_or]
      constructor
      · rintro ⟨e, he⟩
        refine ⟨fun h => hx h.symm, ih.mp ?_⟩
        simp only [removeFirst, if_neg hx] at he
        cases hr : removeFirst xs a with
        | ok l' => rw [hr] at he; simp [Except.map] at he
        | error e' => exact ⟨e', rfl⟩
      · rintro ⟨_, hnm⟩
        obtain ⟨e, he⟩ := ih.mpr hnm
        refine ⟨e, ?_⟩
        simp only [removeFirst, if_neg hx, he, Except.map]

theorem add_none_not_mem {σ : Type} (m : StreamMultiplexer σ) (s : Option σ)
    (h : none ∉ m.streams) : none ∉ (m.add s).streams := by
  cases s with
  | none => exact h
  | some x =>
    simp only [add, List.mem_append, List.mem_singleton]
    rintro (hm | hx)
    · exact h hm
    · cases hx

theorem init_none_not_mem {σ : Type} (ss : List (Option σ)) :
    none ∉ (init ss).streams := by
  have general : ∀ (l : List (Option σ)) (m : StreamMultiplexer σ),
      none ∉ m.streams → none ∉ (l.foldl add m).streams := by
    intro l
    induction l with
    | nil => intro m h; exact h
    | cons s rest ih =>
      intro m h
      exact ih (m.add s) (add_none_not_mem m s h)
  exact general ss ⟨[]⟩ (by simp)

end StreamMultiplexer

/-! ### Field-preservation lemmas for the supervisor loop -/

@[simp] theorem consumeConn_waitList (st : WorkerState) (c : Conn) :
    (consumeConn st c).waitList = st.waitList := by
  unfold consumeConn
  split
  · cases c <;> rfl
  · rfl

@[simp] theorem consumeConn_resultsData (st : WorkerState) (c : Conn) :
    (consumeConn st c).resultsData = st.resultsData := by
  unfold consumeConn
  split
  · cases c <;> rfl
  · rfl

@[simp] theorem consumeConn_resetting (st : WorkerState) (c : Conn) :
    (consumeConn st c).resetting = st.resetting := by
  unfold consumeConn
  split
  · cases c <;> rfl
  · rfl

@[simp] theorem consumeConn_quitting (st : WorkerState) (c : Conn) :
    (consumeConn st c).quitting = st.quitting := by
  unfold consumeConn
  split
  · cases c <;> rfl
  · rfl

@[simp] theorem consumeConn_eager (st : WorkerState) (c : Conn) :
    (consumeConn st c).eager = st.eager := by
  unfold consumeConn
  split
  · cases c <;> rfl
  · rfl

@[simp] theorem consumeConn_exitcode (st : WorkerState) (c : Conn) :
    (consumeConn st c).exitcode = st.exitcode := by
  unfold consumeConn
  split
  · cases c <;> rfl
  · rfl

@[simp] theorem consumeConn_closes (st : WorkerState) (c : Conn) :
    (consumeConn st c).closes = st.closes := by
  unfold consumeConn
  split
  · cases c <;> rfl
  · rfl

@[simp] theorem consumeConn_spawns (st : WorkerState) (c : Conn) :
    (consumeConn st c).spawns = st.spawns := by
  unfold consumeConn
  split
  · cases c <;> rfl
  · rfl

@[simp] theorem consume_connections_waitList (st : WorkerState) :
    (consume_connections st).waitList = st.waitList := by
  simp [consume_connections]

@[simp] theorem consume_connections_resultsData (st : WorkerState) :
    (consume_connections st).resultsData = st.resultsData := by
  simp [consume_connections]

@[simp] theorem consume_connections_resetting (st : WorkerState) :
    (consume_connections st).resetting = st.resetting := by
  simp [consume_connections]

@[simp] theorem consume_connections_quitting (st : WorkerState) :
    (consume_connections st).quitting = st.quitting := by
  simp [consume_connections]

@[simp] theorem consume_connections_eager (st : WorkerState) :
    (consume_connections st).eager = st.eager := by
  simp [consume_connections]

@[simp] theorem consume_connections_exitcode (st : WorkerState) :
    (consume_connections st).exitcode = st.exitcode := by
  simp [consume_connections]

@[simp] theorem consume_connections_closes (st : WorkerState) :
    (consume_connections st).closes = st.closes := by
  simp [consume_connections]

@[simp] theorem consume_connections_spawns (st : WorkerState) :
    (consume_connections st).spawns = st.spawns := by
  simp [consume_connections]

/-! ### Claim theorems -/

/-- C1: the claim states that a `ReportExit` produces a user-visible error
event if and only if its `exit_code` field is nonzero, and that
`exit_code == 0` produces no error event. `Worker.handle_report` instead
guards the emission with `report.id != 0`: for a benign exit
(`exit_code = 0`) carrying an ordinary timestamp id the `error` signal IS
emitted, while a genuine crash (`exit_code = 1`) whose id happens to be the
int `0` is suppressed. -/
theorem handle_report_guards_on_id_not_exit_code :
    handle_report (Report.exit (PyValue.str "20220101T120000") 0)
      = [Signal.errorSig (Report.exit (PyValue.str "20220101T120000") 0)] ∧
    handle_report (Report.exit (PyValue.int 0) 1) = [] :=
  ⟨rfl, rfl⟩

/-- C3: when the `resetting` flag is set (a `stop()` was requested) and the
supervisor is not quitting, `Worker.handle_exit` classifies the observed
process exit as `ReportReset` — never as `ReportExit` — regardless of the
exit code the terminated process produced, and `Worker.handle_report`
emits no error signal for a `ReportReset`. -/
theorem handle_exit_resetting_yields_reset (task : PyValue) (st : WorkerState)
    (hr : st.resetting = true) (hq : st.quitting = false) :
    (handle_exit task st).2 = Report.reset task ∧
    (∀ code : Int, (handle_exit task st).2 ≠ Report.exit task code) ∧
    handle_report (Report.reset task) = [] := by
  have h1 : (consume_connections st).resetting = true := by simp [hr]
  have h2 : (consume_connections st).quitting = false := by simp [hq]
  refine ⟨?_, ?_, rfl⟩
  · unfold handle_exit
    simp [h1, h2, hr, hq]
  · intro code
    unfold handle_exit
    simp [h1, h2, hr, hq]

/-- Closed witness for the C3 theorem at a concrete post-`stop()` state
with a nonzero exit code. -/
theorem handle_exit_resetting_yields_reset_witness :
    (handle_exit (PyValue.str "t1") resetWorkerState).2 = Report.reset (PyValue.str "t1") ∧
    (∀ code : Int, (handle_exit (PyValue.str "t1") resetWorkerState).2 ≠ Report.exit (PyValue.str "t1") code) ∧
    handle_report (Report.reset (PyValue.str "t1")) = [] :=
  handle_exit_resetting_yields_reset (PyValue.str "t1") resetWorkerState rfl rfl

theorem handle_exit_fst_resultsData (task : PyValue) (st : WorkerState) :
    (handle_exit task st).1.resultsData = st.resultsData := by
  unfold handle_exit
  by_cases hq : st.quitting = true
  · simp [hq]
  · by_cases hr : st.resetting = true
    · by_cases he : st.eager = true <;> simp [hq, hr, he, process_start]
    · by_cases he : st.eager = true <;> simp [hq, hr, he, process_start]

theorem handle_exit_snd (task : PyValue) (st : WorkerState) :
    (handle_exit task st).2 = Report.quit ∨
    (handle_exit task st).2 = Report.reset task ∨
    (handle_exit task st).2 = Report.exit task st.exitcode := by
  unfold handle_exit
  by_cases hq : st.quitting = true
  · left
    simp [hq]
  · by_cases hr : st.resetting = true
    · right; left
      simp [hq, hr]
    · right; right
      simp [hq, hr]

/-- C2: the claim states that when both the result channel and the process
exit signal are ready in the same wait round, the received result is the
authoritative report. In `Worker.loop` the sentinel branch is tested first:
evaluated at a state whose result channel holds the worker's `ReportDone`
while the exited process's sentinel is also ready, the loop instead
reports `ReportExit` (exit code 0), and the pending `ReportDone` is never
received (it is still buffered when the channel set is closed). -/
theorem loop_step_tie_discards_result_counterexample :
    (loop_step (PyValue.str "t1") tieState [Conn.sentinel, Conn.results]).2
      = some (Report.exit (PyValue.str "t1") 0) ∧
    (loop_step (PyValue.str "t1") tieState [Conn.sentinel, Conn.results]).1.resultsData
      = [Report.done (PyValue.str "t1") (PyValue.int 42)] :=
  ⟨rfl, rfl⟩

/-- C2 (amended): whenever the process exit signal is among the ready
connections, `Worker.loop` gives it precedence: the step's report comes
from `handle_exit` (a `ReportQuit`, `ReportReset` or `ReportExit`, never
the pending Done/Fail value), and nothing is received from the result
channel. -/
theorem loop_step_sentinel_takes_precedence (task : PyValue) (st : WorkerState)
    (ready : List Conn) (h : Conn.sentinel ∈ ready) :
    (loop_step task st ready).1.resultsData = st.resultsData ∧
    ((loop_step task st ready).2 = some Report.quit ∨
     (loop_step task st ready).2 = some (Report.reset task) ∨
     (loop_step task st ready).2 = some (Report.exit task st.exitcode)) := by
  unfold loop_step
  rw [if_pos h]
  dsimp only
  constructor
  · exact handle_exit_fst_resultsData task (popSentinelResults st)
  · rcases handle_exit_snd task (popSentinelResults st) with hc | hc | hc <;> rw [hc]
    · exact Or.inl rfl
    · exact Or.inr (Or.inl rfl)
    · exact Or.inr (Or.inr rfl)

/-- Closed witness for the C2 amended theorem at the concrete tie state. -/
theorem loop_step_sentinel_takes_precedence_witness :
    (loop_step (PyValue.str "t1") tieState [Conn.sentinel, Conn.results]).1.resultsData
      = tieState.resultsData ∧
    ((loop_step (PyValue.str "t1") tieState [Conn.sentinel, Conn.results]).2 = some Report.quit ∨
     (loop_step (PyValue.str "t1") tieState [Conn.sentinel, Conn.results]).2
       = some (Report.reset (PyValue.str "t1")) ∨
     (loop_step (PyValue.str "t1") tieState [Conn.sentinel, Conn.results]).2
       = some (Report.exit (PyValue.str "t1") tieState.exitcode)) :=
  loop_step_sentinel_takes_precedence (PyValue.str "t1") tieState
    [Conn.sentinel, Conn.results] (by decide)

/-- C4: the claim states that `stop()` with no task running changes no
observable state and emits no notification. Evaluated at the idle facade
state (`busy = false`, eager worker alive), `Task.stop` emits the
`'Cancelled by user.'` warning, sets the `resetting` flag and terminates
the idle worker process. -/
theorem task_stop_idle_not_noop_counterexample :
    idleTaskState.busy = false ∧
    (Task.stop idleTaskState).notifications = [Notif.warn "Cancelled by user."] ∧
    (Task.stop idleTaskState).resetting = true ∧
    (Task.stop idleTaskState).terminated = true ∧
    Task.stop idleTaskState ≠ idleTaskState :=
  ⟨rfl, rfl, rfl, rfl, by decide⟩

/-- C4 (amended): `Task.stop` is a no-op only when `self.worker is None`.
Otherwise — also when no task is running — it always emits the
`'Cancelled by user.'` warning notification and re-assigns `busy = False`
(leaving `done` unchanged); when the worker process is alive it
additionally sets the `resetting` flag, flushes the streams and terminates
the process, and when it is not alive it leaves the worker state
unchanged. -/
theorem task_stop_behaviour (st : TaskState) :
    (st.hasWorker = false → Task.stop st = st) ∧
    (st.hasWorker = true →
      (Task.stop st).notifications = st.notifications ++ [Notif.warn "Cancelled by user."] ∧
      (Task.stop st).busy = false ∧
      (Task.stop st).done = st.done ∧
      (st.procAlive = true →
        (Task.stop st).resetting = true ∧
        (Task.stop st).terminated = true ∧
        (Task.stop st).flushes = st.flushes + 1) ∧
      (st.procAlive = false →
        (Task.stop st).resetting = st.resetting ∧
        (Task.stop st).terminated = st.terminated ∧
        (Task.stop st).flushes = st.flushes)) := by
  constructor
  · intro h
    simp [Task.stop, h]
  · intro h
    have hne : ¬ st.hasWorker = false := by simp [h]
    unfold Task.stop Worker.reset
    by_cases hp : st.procAlive = true
    · simp [hne, hp]
    · simp [hne, hp]

/-- Closed witness for the C4 amended theorem at the idle facade state. -/
theorem task_stop_behaviour_witness :
    (Task.stop idleTaskState).notifications
      = idleTaskState.notifications ++ [Notif.warn "Cancelled by user."] ∧
    (Task.stop idleTaskState).busy = false ∧
    (Task.stop idleTaskState).resetting = true ∧
    (Task.stop idleTaskState).flushes = idleTaskState.flushes + 1 := by
  have h := (task_stop_behaviour idleTaskState).2 rfl
  exact ⟨h.1, h.2.1, (h.2.2.2.1 rfl).1, (h.2.2.2.1 rfl).2.2⟩

theorem consume_connections_drain (st : WorkerState)
    (h1 : Conn.reports ∈ st.waitList) (h2 : Conn.pipeOut ∈ st.waitList)
    (h3 : Conn.pipeErr ∈ st.waitList) :
    (consume_connections st).reportsData = [] ∧
    (consume_connections st).outData = [] ∧
    (consume_connections st).errData = [] ∧
    (consume_connections st).emittedProgress = st.emittedProgress ++ st.reportsData ∧
    (consume_connections st).writtenOut = st.writtenOut ++ st.outData ∧
    (consume_connections st).writtenErr = st.writtenErr ++ st.errData := by
  have e1 : consumeConn st .reports
      = { st with reportsData := [], emittedProgress := st.emittedProgress ++ st.reportsData } := by
    unfold consumeConn
    rw [if_pos h1]
  have e2 : consumeConn (consumeConn st .reports) .pipeOut
      = { st with
            reportsData := []
            emittedProgress := st.emittedProgress ++ st.reportsData
            outData := []
            writtenOut := st.writtenOut ++ st.outData } := by
    rw [e1]
    unfold consumeConn
    rw [if_pos (show Conn.pipeOut ∈ _ from h2)]
  have e3 : consume_connections st
      = { st with
            reportsData := []
            emittedProgress := st.emittedProgress ++ st.reportsData
            outData := []
            writtenOut := st.writtenOut ++ st.outData
            errData := []
            writtenErr := st.writtenErr ++ st.errData } := by
    unfold consume_connections
    rw [e2]
    unfold consumeConn
    rw [if_pos (show Conn.pipeErr ∈ _ from h3)]
  rw [e3]
  exact ⟨rfl, rfl, rfl, rfl, rfl, rfl⟩

/-- C5: the claim states that when the result channel produces the Done/Fail
report before process exit, the loop drains the remaining buffered data,
closes the channel set and (with `eager` set) immediately respawns a fresh
worker. Evaluated at a state where only the result channel is ready
(`eager = true`), the step returns the buffered `ReportDone` and drains,
but the channel set is not closed and no fresh process is spawned: the
close/respawn happen only on the process-exit path (`handle_exit`). -/
theorem loop_step_result_keeps_channels_counterexample :
    resultState.eager = true ∧
    (loop_step (PyValue.str "t1") resultState [Conn.results]).2
      = some (Report.done (PyValue.str "t1") (PyValue.int 42)) ∧
    (loop_step (PyValue.str "t1") resultState [Conn.results]).1.closes = resultState.closes ∧
    (loop_step (PyValue.str "t1") resultState [Conn.results]).1.spawns = resultState.spawns :=
  ⟨rfl, rfl, rfl, rfl⟩

/-- C5 (amended): when the result channel produces a report before process
exit, the loop takes it as the authoritative report and drains any
remaining buffered progress/stdout/stderr data non-blockingly; the channel
set stays open and the same worker process is reused for the next command
(no close, no respawn — those happen only on the process-exit path). -/
theorem loop_step_result_drains_without_respawn (task : PyValue) (st : WorkerState)
    (ready : List Conn) (r : Report) (rest : List Report)
    (hs : Conn.sentinel ∉ ready) (hr : Conn.results ∈ ready)
    (hd : st.resultsData = r :: rest)
    (h1 : Conn.reports ∈ st.waitList) (h2 : Conn.pipeOut ∈ st.waitList)
    (h3 : Conn.pipeErr ∈ st.waitList) :
    (loop_step task st ready).2 = some r ∧
    (loop_step task st ready).1.closes = st.closes ∧
    (loop_step task st ready).1.spawns = st.spawns ∧
    (loop_step task st ready).1.reportsData = [] ∧
    (loop_step task st ready).1.outData = [] ∧
    (loop_step task st ready).1.errData = [] ∧
    (loop_step task st ready).1.emittedProgress = st.emittedProgress ++ st.reportsData ∧
    (loop_step task st ready).1.writtenOut = st.writtenOut ++ st.outData ∧
    (loop_step task st ready).1.writtenErr = st.writtenErr ++ st.errData := by
  have hfilter : ∀ c : Conn, c ∈ st.waitList → (c != Conn.sentinel && c != Conn.results) = true →
      c ∈ (popSentinelResults { st with resultsData := rest }).waitList := by
    intro c hc hpred
    simp only [popSentinelResults]
    exact List.mem_filter.mpr ⟨hc, hpred⟩
  have m1 := hfilter Conn.reports h1 (by decide)
  have m2 := hfilter Conn.pipeOut h2 (by decide)
  have m3 := hfilter Conn.pipeErr h3 (by decide)
  have hdrain := consume_connections_drain
    (popSentinelResults { st with resultsData := rest }) m1 m2 m3
  unfold loop_step
  rw [if_neg hs, if_pos hr, hd]
  exact ⟨rfl, by simp [popSentinelResults], by simp [popSentinelResults],
    hdrain.1, hdrain.2.1, hdrain.2.2.1,
    hdrain.2.2.2.1, hdrain.2.2.2.2.1, hdrain.2.2.2.2.2⟩

/-- Closed witness for the C5 amended theorem at the concrete ready-result
state. -/
theorem loop_step_result_drains_without_respawn_witness :
    (loop_step (PyValue.str "t1") resultState [Conn.results]).2
      = some (Report.done (PyValue.str "t1") (PyValue.int 42)) ∧
    (loop_step (PyValue.str "t1") resultState [Conn.results]).1.closes = resultState.closes ∧
    (loop_step (PyValue.str "t1") resultState [Conn.results]).1.spawns = resultState.spawns ∧
    (loop_step (PyValue.str "t1") resultState [Conn.results]).1.reportsData = [] ∧
    (loop_step (PyValue.str "t1") resultState [Conn.results]).1.outData = [] ∧
    (loop_step (PyValue.str "t1") resultState [Conn.results]).1.errData = [] ∧
    (loop_step (PyValue.str "t1") resultState [Conn.results]).1.emittedProgress
      = resultState.emittedProgress ++ resultState.reportsData ∧
    (loop_step (PyValue.str "t1") resultState [Conn.results]).1.writtenOut
      = resultState.writtenOut ++ resultState.outData ∧
    (loop_step (PyValue.str "t1") resultState [Conn.results]).1.writtenErr
      = resultState.writtenErr ++ resultState.errData :=
  loop_step_result_drains_without_respawn (PyValue.str "t1") resultState [Conn.results]
    (Report.done (PyValue.str "t1") (PyValue.int 42)) []
    (by decide) (by decide) rfl (by decide) (by decide) (by decide)

theorem run_take_bound (outcome : Cmd → Report) :
    ∀ (q : List (Option Cmd)) (n : Nat),
      countDispatched ((run_events outcome q).take n)
        ≤ countReported ((run_events outcome q).take n) + 1
  | [], n => by simp [run_events, countDispatched, countReported]
  | none :: _, n => by simp [run_events, countDispatched, countReported]
  | some _ :: _, 0 => by simp [countDispatched, countReported]
  | some t :: rest, 1 => by
    simp [run_events, countDispatched, countReported, List.take, List.filter]
  | some t :: rest, (n + 2) => by
    have ih := run_take_bound outcome rest n
    simp only [run_events, List.take, countDispatched, countReported, List.filter,
      List.length_cons] at ih ⊢
    omega

/-- C6: `Worker.run` serializes tasks — dequeuing `T1` then `T2`, the trace
dispatches `T1`, handles `T1`'s terminal report, and only then dispatches
`T2`; moreover every prefix of any trace has at most one more dispatch than
handled reports, i.e. at most one task is in flight at any time. -/
theorem run_events_serializes_tasks (outcome : Cmd → Report) (t1 t2 : Cmd)
    (rest : List (Option Cmd)) :
    run_events outcome (some t1 :: some t2 :: rest)
      = Event.dispatched t1 :: Event.reported t1 (outcome t1)
        :: Event.dispatched t2 :: Event.reported t2 (outcome t2) :: run_events outcome rest ∧
    ∀ (q : List (Option Cmd)) (n : Nat),
      countDispatched ((run_events outcome q).take n)
        ≤ countReported ((run_events outcome q).take n) + 1 :=
  ⟨rfl, run_take_bound outcome⟩

/-- C7: after registering sinks A then B, `write X` delivers `X` to both A
and B in registration order; after `remove B`, a subsequent `write Y`
delivers `Y` to A but not to B. -/
theorem stream_multiplexer_fanout_and_removal (σ : Type) [DecidableEq σ]
    (A B : σ) (hAB : A ≠ B) (X Y : String) :
    (((StreamMultiplexer.mk ([] : List (Option σ))).add (some A)).add (some B)).write X
      = [(some A, X), (some B, X)] ∧
    ∃ m2,
      (((StreamMultiplexer.mk ([] : List (Option σ))).add (some A)).add (some B)).remove (some B)
        = .ok m2 ∧
      m2.write Y = [(some A, Y)] := by
  refine ⟨rfl, ⟨⟨[some A]⟩, ?_, rfl⟩⟩
  have h1 : (some A : Option σ) ≠ some B := by simpa using hAB
  simp [StreamMultiplexer.remove, StreamMultiplexer.removeFirst, StreamMultiplexer.add, h1,
    Except.map]

/-- Closed witness for the C7 theorem with two distinct sinks. -/
theorem stream_multiplexer_fanout_and_removal_witness :
    (((StreamMultiplexer.mk ([] : List (Option Nat))).add (some 0)).add (some 1)).write "X"
      = [(some 0, "X"), (some 1, "X")] ∧
    ∃ m2,
      (((StreamMultiplexer.mk ([] : List (Option Nat))).add (some 0)).add (some 1)).remove (some 1)
        = .ok m2 ∧
      m2.write "Y" = [(some 0, "Y")] :=
  stream_multiplexer_fanout_and_removal Nat 0 1 (by decide) "X" "Y"

/-- C10: `StreamMultiplexer.remove` raises `ValueError` exactly when the
sink is not among the registered sinks; in particular a `None` sink —
silently ignored at registration — is never registered, so removing it
always raises. -/
theorem stream_multiplexer_remove_error_iff_absent (σ : Type) [DecidableEq σ]
    (m : StreamMultiplexer σ) (s : Option σ) :
    ((∃ e, m.remove s = .error e) ↔ s ∉ m.streams) ∧
    ∀ ss : List (Option σ), ∃ e, (StreamMultiplexer.init ss).remove none = .error e := by
  have key : ∀ (m' : StreamMultiplexer σ) (s' : Option σ),
      (∃ e, m'.remove s' = .error e) ↔ s' ∉ m'.streams := by
    intro m' s'
    unfold StreamMultiplexer.remove
    constructor
    · rintro ⟨e, he⟩
      apply (StreamMultiplexer.removeFirst_error_iff m'.streams s').mp
      cases hr : StreamMultiplexer.removeFirst m'.streams s' with
      | ok l => rw [hr] at he; simp [Except.map] at he
      | error e' => exact ⟨e', rfl⟩
    · intro h
      obtain ⟨e, he⟩ := (StreamMultiplexer.removeFirst_error_iff m'.streams s').mpr h
      exact ⟨e, by rw [he]; rfl⟩
  exact ⟨key m s,
    fun ss => (key (StreamMultiplexer.init ss) none).mpr (StreamMultiplexer.init_none_not_mem ss)⟩

/-- Closed witness for the C10 theorem: a multiplexer initialized with a
live sink and a `None` sink registers only the former, and removing `None`
raises. -/
theorem stream_multiplexer_remove_error_iff_absent_witness :
    ∃ e, (StreamMultiplexer.init [some (1 : Nat), none]).remove none = .error e :=
  (stream_multiplexer_remove_error_iff_absent Nat ⟨[]⟩ none).2 [some 1, none]

theorem find_some_of_any {α : Type} (p : α → Bool) (l : List α) (h : l.any p = true) :
    ∃ x, l.find? p = some x ∧ p x = true := by
  induction l with
  | nil => simp at h
  | cons a as ih =>
    by_cases hp : p a = true
    · exact ⟨a, by rw [List.find?_cons_of_pos _ hp], hp⟩
    · simp only [List.any_cons, hp, Bool.false_or] at h
      obtain ⟨x, hx, hpx⟩ := ih h
      refine ⟨x, ?_, hpx⟩
      rw [List.find?_cons_of_neg _ (by simp [hp]), hx]

theorem lookup_upsert {β : Type} (params : List (String × β)) (k : String) (v : β) :
    lookupParam (upsert params k v) k = some v := by
  induction params with
  | nil => simp [upsert, lookupParam, List.find?]
  | cons p rest ih =>
    by_cases h : p.1 = k
    · simp [upsert, h, lookupParam, List.find?]
    · simp only [upsert, if_neg h]
      simp only [lookupParam] at ih ⊢
      rw [List.find?_cons_of_neg _ (by simp [h])]
      exact ih

/-- C8: the claim states that a configuration key that appears more than
once is treated as absent from the returned mapping. In the code a later
occurrence simply overwrites the earlier one in the `params` dict:
evaluated on a file with `NUMBERN=1` then `NUMBERN=2`, the parse succeeds
with `NUMBERN` present, bound to the last occurrence's value. -/
theorem parse_configuration_duplicate_key_counterexample :
    parse_configuration_file ["NUMBERN=1", "NUMBERN=2"]
      = .ok [("NUMBERN", ConfigValue.intVal 2)] := rfl

/-- C8 (amended): `parse_configuration_file` (i) rejects the whole file
with an error as soon as any collected parameter name is outside the fixed
closed key set; (ii) a line whose `=`-split has an empty value part
contributes nothing to the collected parameters (the key stays absent, not
zero or a default); (iii) a line storing key `k` makes `k` present and
bound to that line's (space-stripped) value, overwriting any earlier
occurrence — a duplicated key takes the last value rather than becoming
absent. -/
theorem parse_configuration_amended :
    (∀ lines : List String,
      (collectParams lines).any (fun p => (reference (toUpperStr p.1)).isNone) = true →
      ∃ msg, parse_configuration_file lines = .error (.exception msg)) ∧
    (∀ (params : List (String × String)) (line k : String),
      splitStr '=' (stripStr line) = [k, ""] →
      collectStep params line = params) ∧
    (∀ (params : List (String × String)) (line k v : String),
      startsWithHash (stripStr line) = false →
      splitStr '=' (stripStr line) = [k, v] →
      v.length ≠ 0 →
      lookupParam (collectStep params line) k = some (removeSpaces v)) := by
  refine ⟨?_, ?_, ?_⟩
  · intro lines h
    obtain ⟨p, hfind, hp⟩ := find_some_of_any _ _ h
    have hne : ¬ (collectParams lines).isEmpty = true := by
      cases hl : collectParams lines with
      | nil => rw [hl] at hfind; simp [List.find?] at hfind
      | cons a as => simp
    have heq : parse_configuration_file lines
        = .error (.exception
            ("Error opening configuration file: \n" ++ "Invalid parameter name: " ++ p.1)) := by
      unfold parse_configuration_file
      rw [if_neg hne, hfind]
    exact ⟨_, heq⟩
  · intro params line k hsplit
    unfold collectStep
    by_cases hh : startsWithHash (stripStr line) = true
    · rw [if_pos hh]
    · rw [if_neg hh, hsplit]
      simp
  · intro params line k v hh hsplit hv
    unfold collectStep
    rw [if_neg (by simp [hh]), hsplit]
    simp only [if_pos hv]
    exact lookup_upsert params k (removeSpaces v)

/-- Closed witness for the C8 amended theorem: an unknown key rejects the
file, an empty-valued line contributes nothing, and a second occurrence of
a key overwrites the first. -/
theorem parse_configuration_amended_witness :
    (∃ msg, parse_configuration_file ["FOO=1"] = .error (.exception msg)) ∧
    collectStep [] "NUMBERN=" = [] ∧
    lookupParam (collectStep [("NUMBERN", "1")] "NUMBERN=2") "NUMBERN" = some "2" := by
  refine ⟨parse_configuration_amended.1 ["FOO=1"] (by decide),
    parse_configuration_amended.2.1 [] "NUMBERN=" "NUMBERN" (by decide), ?_⟩
  exact parse_configuration_amended.2.2 [("NUMBERN", "1")] "NUMBERN=2" "NUMBERN" "2"
    (by decide) (by decide) (by decide)

theorem splitChars_ne_nil (c : Char) : ∀ l : List Char, splitChars c l ≠ []
  | [] => by simp [splitChars]
  | x :: xs => by
    by_cases h : x = c
    · simp [splitChars, h]
    · simp only [splitChars, if_neg h]
      cases hsp : splitChars c xs with
      | nil => simp
      | cons g gs => simp

theorem splitChars_length (c : Char) : ∀ l : List Char, (splitChars c l).length = l.count c + 1
  | [] => by simp [splitChars]
  | x :: xs => by
    have ih := splitChars_length c xs
    by_cases h : x = c
    · subst h
      simp [splitChars, List.count_cons_self, ih]
    · simp only [splitChars, if_neg h]
      cases hsp : splitChars c xs with
      | nil => exact absurd hsp (splitChars_ne_nil c xs)
      | cons g gs =>
        rw [hsp] at ih
        have hcount : (x :: xs).count c = xs.count c := List.count_cons_of_ne (fun hc => h hc.symm) xs
        simpa [List.length_cons, hcount] using ih

/-- C9: `check_sequence_file` returns normally exactly when the file's text
begins with the FASTA marker `'>'` and the remainder of its first header
line contains exactly one pipe character; in every other case it raises a
parse error. -/
theorem check_sequence_file_iff (content : String) :
    check_sequence_file content = .ok () ↔
      ∃ rest : List Char, content.data = '>' :: rest ∧ (takeLine rest).count '|' = 1 := by
  unfold check_sequence_file
  cases hd : content.data with
  | nil =>
    constructor
    · intro h
      simp at h
    · rintro ⟨rest, habs, _⟩
      cases habs
  | cons c rest =>
    dsimp only
    by_cases hc : c = '>'
    · subst hc
      rw [if_neg (by simp)]
      have hlen := splitChars_length '|' (takeLine rest)
      constructor
      · intro h
        refine ⟨rest, rfl, ?_⟩
        by_cases h2 : (splitChars '|' (takeLine rest)).length < 2
        · rw [if_pos h2] at h
          simp at h
        · rw [if_neg h2] at h
          by_cases h3 : (splitChars '|' (takeLine rest)).length > 2
          · rw [if_pos h3] at h
            simp at h
          · omega
      · rintro ⟨rest', heq, hcount⟩
        obtain rfl : rest = rest' := by
          injection heq
        rw [if_neg (by omega), if_neg (by omega)]
    · rw [if_pos hc]
      constructor
      · intro h
        simp at h
      · rintro ⟨rest', heq, _⟩
        injection heq with hch _
        exact absurd hch hc

/-- Closed witness for the C9 theorem at a well-formed FASTA header. -/
theorem check_sequence_file_iff_witness :
    check_sequence_file ">id|taxon\nACGT" = .ok () :=
  (check_sequence_file_iff ">id|taxon\nACGT").mpr
    ⟨"id|taxon\nACGT".data, by decide, by decide⟩

end MolD
